import Mathlib

/-!
Communication::Client and HTTP: a shallow embedding

The definitions below follow `src/src/com_client.cpp`, `src/include/com_client.hpp`
and `src/src/http_client.cpp`.

* The object state of `Client` is the record `Client` (descriptor, mode, connection flag).
* Every operating-system call made by a method is answered by an explicit record of
  replies, one field per call site, and every method returns the list of calls it issued.
* A C++ `throw` of a `std::string` is `Except.error` carrying that string.
* `int` is 32 bits wide and `size_t` is 64 bits wide (Linux, LP64); conversions between
  them are written out with `%`.
* Logging (`LOG`, `std::cout`) and the mutex do not influence a sequential run and are
  left out.
-/

namespace Communication

/-! ## Machine integers -/

/-- Conversion of an integer value to the 32-bit type `int` (two-complement wrap). -/
def to_int (v : Int) : Int := (v + 2 ^ 31) % 2 ^ 32 - 2 ^ 31

/-- Conversion of an `int` to the 64-bit unsigned type `size_t`: the value modulo `2^64`.
This is the conversion the comparison `n < size` applies to its left operand. -/
def to_size_t (v : Int) : Nat := (v % 2 ^ 64).toNat

/-! ## Client state -/

/-- The two values `m_comm_mode` takes in `com_client.cpp`. -/
inductive Mode
  | SERIAL_MODE
  | SOCKET_MODE
  deriving DecidableEq, Repr

/-- The members of `Client` that the methods of `com_client.cpp` read or assign. -/
structure Client where
  m_fd : Int
  m_comm_mode : Mode
  m_is_connected : Bool
  deriving DecidableEq, Repr

/-- Accessor `Client::is_connected` (com_client.hpp, lines 109-113). -/
def is_connected (c : Client) : Bool := c.m_is_connected

/-! ## readS and writeS -/

/-- Answer of one `recv`/`read` call: the returned count and the bytes stored at the
start of the buffer. -/
structure IoReply where
  ret : Int
  data : List Nat
  deriving DecidableEq, Repr

/-- Replies of the transport to the single call `readS` or `writeS` issues.
`recv fd size` and `read fd size` answer a request for `size` bytes on `fd`;
`send fd bytes` and `write fd bytes` answer a request to transmit `bytes`. -/
structure TransportOS where
  recv : Int → Nat → IoReply
  read : Int → Nat → IoReply
  send : Int → List Nat → Int
  write : Int → List Nat → Int

/-- The buffer after the transport stored `data` at its start. -/
def store (buffer data : List Nat) : List Nat := data ++ buffer.drop data.length

/-- Method `Client::readS(uint8_t *buffer, size_t size)` (com_client.cpp, lines 191-205).
Returns the result (the returned `int`, or the thrown string) and the buffer. -/
def readS (os : TransportOS) (c : Client) (buffer : List Nat) (size : Nat) :
    Except String Int × List Nat :=
  let r : IoReply :=
    match c.m_comm_mode with
    | Mode.SOCKET_MODE => os.recv c.m_fd size
    | Mode.SERIAL_MODE => os.read c.m_fd size
  let n : Int := to_int r.ret
  if to_size_t n < size then
    (Except.error ("reading error: " ++ toString n ++ "/" ++ toString size), store buffer r.data)
  else
    (Except.ok n, store buffer r.data)

/-- Method `Client::writeS(const void *buffer, size_t size)` (com_client.cpp, lines 207-221).
Returns the result (the returned `int`, or the thrown string) and the bytes
`buffer[0..size)` it handed to the transport. -/
def writeS (os : TransportOS) (c : Client) (buffer : List Nat) (size : Nat) :
    Except String Int × List Nat :=
  let r : Int :=
    match c.m_comm_mode with
    | Mode.SOCKET_MODE => os.send c.m_fd (buffer.take size)
    | Mode.SERIAL_MODE => os.write c.m_fd (buffer.take size)
  let n : Int := to_int r
  if to_size_t n < size then
    (Except.error ("Writing error: " ++ toString n ++ "/" ++ toString size), buffer.take size)
  else
    (Except.ok n, buffer.take size)

/-- A transport whose every call reports the count `n` and stores nothing. -/
def constant_transport (n : Int) : TransportOS where
  recv := fun _ _ => ⟨n, []⟩
  read := fun _ _ => ⟨n, []⟩
  send := fun _ _ => n
  write := fun _ _ => n

/-- A transport on which the peer data arrives in the chunks `chunks`: one `recv`/`read`
delivers the first chunk, cut to the requested size, and reports end of data (0) when
nothing is pending. Writes are accepted whole. -/
def chunked_transport (chunks : List (List Nat)) : TransportOS where
  recv := fun _ size => ⟨((chunks.headD []).take size).length, (chunks.headD []).take size⟩
  read := fun _ size => ⟨((chunks.headD []).take size).length, (chunks.headD []).take size⟩
  send := fun _ bytes => bytes.length
  write := fun _ bytes => bytes.length


/-! ## Operating-system interface of the connection methods -/

/-- Linux value of `O_RDWR` (fcntl.h). -/
def O_RDWR : Int := 2

/-- Linux value of `O_NOCTTY` (fcntl.h). -/
def O_NOCTTY : Int := 256

/-- Linux value of `O_NONBLOCK` (fcntl.h). -/
def O_NONBLOCK : Int := 2048

/-- Linux value of `EINPROGRESS` (errno.h). -/
def EINPROGRESS : Int := 115

/-- The constant `INVALID_SOCKET`, defined as -1 in com_client.hpp, line 34. -/
def INVALID_SOCKET : Int := -1

/-- The default value `O_RDWR | O_NOCTTY` of the `flags` argument of `open_connection`
(com_client.hpp, line 77); it is also the value `open_connection` compares `flags` with. -/
def default_flags : Int := Int.lor O_RDWR O_NOCTTY

/-- The fields of `struct termios` that `setup_serial` assigns: the four flag words
(`tcflag_t`, 32 bits unsigned), the entries `VTIME` and `VMIN` of `c_cc`, and the two
speed fields `c_ispeed` and `c_ospeed`. -/
structure Termios where
  c_iflag : Nat
  c_oflag : Nat
  c_cflag : Nat
  c_lflag : Nat
  c_cc_VTIME : Nat
  c_cc_VMIN : Nat
  c_ispeed : Nat
  c_ospeed : Nat
  deriving DecidableEq, Repr

/-- The statement `word &= ~mask` on a 32-bit unsigned flag word. -/
def clear_bits (word mask : Nat) : Nat := word &&& (0xFFFFFFFF ^^^ mask)

/-- The statement `word |= mask`. -/
def set_bits (word mask : Nat) : Nat := word ||| mask

/-- Linux value of `B500000` (termbits.h). -/
def B500000 : Nat := 0o10005

/-- Library call `cfsetispeed(&tty, speed)` of glibc for a non-zero speed: `c_ispeed` is
assigned, `IBAUD0` is cleared in `c_iflag`, and the speed replaces the bits
`CBAUD | CBAUDEX` of `c_cflag`. -/
def cfsetispeed (tty : Termios) (speed : Nat) : Termios :=
  { tty with
    c_ispeed := speed,
    c_iflag := clear_bits tty.c_iflag 0o20000000000,
    c_cflag := set_bits (clear_bits tty.c_cflag (0o10017 ||| 0o10000)) speed }

/-- Library call `cfsetospeed(&tty, speed)` of glibc: `c_ospeed` is assigned and the
speed replaces the bits `CBAUD | CBAUDEX` of `c_cflag`. -/
def cfsetospeed (tty : Termios) (speed : Nat) : Termios :=
  { tty with
    c_ospeed := speed,
    c_cflag := set_bits (clear_bits tty.c_cflag (0o10017 ||| 0o10000)) speed }

/-- Lines 158-183 of `setup_serial`: the line settings written back with `tcsetattr`.
The masks are the Linux values of termbits.h (octal, as there). -/
def configure_tty (tty : Termios) : Termios :=
  let c_cflag := clear_bits tty.c_cflag 0o400          -- ~PARENB
  let c_cflag := clear_bits c_cflag 0o100              -- ~CSTOPB
  let c_cflag := clear_bits c_cflag 0o60               -- ~CSIZE
  let c_cflag := set_bits c_cflag 0o60                 -- CS8
  let c_cflag := clear_bits c_cflag 0o20000000000      -- ~CRTSCTS
  let c_cflag := set_bits c_cflag (0o200 ||| 0o4000)   -- CREAD | CLOCAL
  let c_lflag := clear_bits tty.c_lflag 0o2            -- ~ICANON
  let c_lflag := clear_bits c_lflag 0o10               -- ~ECHO
  let c_lflag := clear_bits c_lflag 0o20               -- ~ECHOE
  let c_lflag := clear_bits c_lflag 0o100              -- ~ECHONL
  let c_lflag := clear_bits c_lflag 0o1                -- ~ISIG
  let c_iflag := clear_bits tty.c_iflag (0o2000 ||| 0o10000 ||| 0o4000) -- ~(IXON|IXOFF|IXANY)
  let c_iflag := clear_bits c_iflag
    (0o1 ||| 0o2 ||| 0o10 ||| 0o40 ||| 0o100 ||| 0o200 ||| 0o400)
  let c_oflag := clear_bits tty.c_oflag 0o1            -- ~OPOST
  let c_oflag := clear_bits c_oflag 0o4                -- ~ONLCR
  let tty : Termios :=
    { tty with c_iflag := c_iflag, c_oflag := c_oflag, c_cflag := c_cflag, c_lflag := c_lflag,
               c_cc_VTIME := 4, c_cc_VMIN := 0 }
  let tty := cfsetispeed tty B500000
  cfsetospeed tty B500000

/-- The operating-system calls issued by the connection methods, with their arguments. -/
inductive SysCall
  | socket
  | gethostbyname (address : String)
  | fcntl_getfl (fd : Int)
  | fcntl_setfl (fd : Int) (flags : Int)
  | connect (fd : Int) (address : String) (sin_port : Int)
  | select (nfds : Int) (tv_sec : Int) (tv_usec : Int)
  | getsockopt (fd : Int)
  | open_ (path : String) (flags : Int)
  | tcgetattr (fd : Int)
  | tcsetattr (fd : Int) (tty : Termios)
  | usleep (usec : Nat)
  | close (fd : Int)
  deriving DecidableEq, Repr

/-- Is the call an `fcntl` (the only calls that read or change the blocking mode)? -/
def SysCall.is_fcntl : SysCall → Bool
  | SysCall.fcntl_getfl _ => true
  | SysCall.fcntl_setfl _ _ => true
  | _ => false

/-- Is the call a `select` (the readiness wait)? -/
def SysCall.is_select : SysCall → Bool
  | SysCall.select _ _ _ => true
  | _ => false

/-- Is the call one that only `setup_socket` issues? -/
def SysCall.is_socket_call : SysCall → Bool
  | SysCall.socket => true
  | SysCall.gethostbyname _ => true
  | SysCall.fcntl_getfl _ => true
  | SysCall.fcntl_setfl _ _ => true
  | SysCall.connect _ _ _ => true
  | SysCall.select _ _ _ => true
  | SysCall.getsockopt _ => true
  | _ => false

/-- Is the call one that only `setup_serial` issues? -/
def SysCall.is_serial_call : SysCall → Bool
  | SysCall.open_ _ _ => true
  | SysCall.tcgetattr _ => true
  | SysCall.tcsetattr _ _ => true
  | _ => false

/-- What a method leaves behind: the returned `int` or the thrown string, the object
state, and the operating-system calls issued, oldest first. -/
structure Outcome where
  result : Except String Int
  client : Client
  trace : List SysCall

/-- Replies to the two `fcntl` calls of one `SetSocketBlockingEnabled` invocation. -/
structure FcntlOS where
  getfl_ret : Int
  setfl_ret : Int

/-- Method `Client::SetSocketBlockingEnabled` (com_client.cpp, lines 223-240, the branch
for Linux): the returned flag and the calls issued. -/
def SetSocketBlockingEnabled (os : FcntlOS) (c : Client) (blocking : Bool) :
    Bool × List SysCall :=
  if c.m_fd < 0 then
    (false, [])
  else
    let flags := os.getfl_ret
    if flags = -1 then
      (false, [SysCall.fcntl_getfl c.m_fd])
    else
      let flags := if blocking then Int.land flags (Int.lnot O_NONBLOCK)
                   else Int.lor flags O_NONBLOCK
      (decide (os.setfl_ret = 0), [SysCall.fcntl_getfl c.m_fd, SysCall.fcntl_setfl c.m_fd flags])

/-- Replies of the operating system to `setup_socket`, one field per call site.
`errno_at_check` is the value of `errno` read by the test of line 105. -/
structure SocketOS where
  socket_ret : Int
  gethostbyname_found : String → Bool
  set_nonblocking : FcntlOS
  connect_ret : Int
  set_blocking : FcntlOS
  errno_at_check : Int
  select_ret : Int
  getsockopt_ret : Int
  so_error : Int
  strerror : Int → String

/-- The local `id` of `setup_socket` and `setup_serial`: "[address:port]". -/
def endpoint_id (address : String) (port : Int) : String :=
  "[" ++ address ++ ":" ++ toString port ++ "]"

/-- The value `htons` receives for `port`: conversion to `uint16_t`. -/
def to_uint16 (v : Int) : Int := v % 65536

/-- Lines 123-135 of `setup_socket`: the check of the pending socket error for the
current value of `res`, and the final `return 1`. -/
def setup_socket_check (os : SocketOS) (id : String) (c : Client) (trace : List SysCall)
    (res : Int) : Outcome :=
  if res = 0 then
    let trace := trace ++ [SysCall.getsockopt c.m_fd]
    if os.getsockopt_ret < 0 then
      ⟨Except.error (id ++ " Error retrieving socket options"), c, trace⟩
    else if os.so_error ≠ 0 then
      ⟨Except.error (id ++ " " ++ os.strerror os.so_error), c, trace⟩
    else
      ⟨Except.ok 1, { c with m_is_connected := true }, trace⟩
  else
    ⟨Except.ok 1, c, trace⟩

/-- Lines 105-122 of `setup_socket`: the readiness wait when `connect` did not complete,
followed by the check of lines 123-135. -/
def setup_socket_wait (os : SocketOS) (id : String) (c : Client) (trace : List SysCall)
    (res timeout : Int) : Outcome :=
  if res < 0 ∧ os.errno_at_check = EINPROGRESS then
    let res := os.select_ret
    let trace := trace ++ [SysCall.select (c.m_fd + 1) timeout 0]
    if res = -1 then
      ⟨Except.error (id ++ " Error with select()"), c, trace⟩
    else if res = 0 then
      ⟨Except.error (id ++ " Connection timed out"), c, trace⟩
    else
      setup_socket_check os id c trace 0
  else
    setup_socket_check os id c trace res

/-- Method `Client::setup_socket` (com_client.cpp, lines 71-136). -/
def setup_socket (os : SocketOS) (c : Client) (address : String) (port timeout : Int) :
    Outcome :=
  let id := endpoint_id address port
  let c := { c with m_fd := os.socket_ret }
  let trace := [SysCall.socket]
  if c.m_fd = INVALID_SOCKET then
    ⟨Except.error "socket() invalid", c, trace⟩
  else
    let trace := trace ++ [SysCall.gethostbyname address]
    if os.gethostbyname_found address = false then
      ⟨Except.error ("Unknown host" ++ address), c, trace⟩
    else
      let trace := if timeout ≠ -1
        then trace ++ (SetSocketBlockingEnabled os.set_nonblocking c false).2 else trace
      let res := os.connect_ret
      let trace := trace ++ [SysCall.connect c.m_fd address (to_uint16 port)]
      let trace := if timeout ≠ -1
        then trace ++ (SetSocketBlockingEnabled os.set_blocking c true).2 else trace
      setup_socket_wait os id c trace res timeout

/-- Replies of the operating system to `setup_serial`, one field per call site;
`tty` is the setting `tcgetattr` reports. -/
structure SerialOS where
  open_ret : Int
  tcgetattr_ret : Int
  tty : Termios
  tcsetattr_ret : Int

/-- Method `Client::setup_serial` (com_client.cpp, lines 138-189). -/
def setup_serial (os : SerialOS) (c : Client) (path : String) (flags : Int) : Outcome :=
  let id := endpoint_id path flags
  let c := { c with m_fd := os.open_ret }
  let trace := [SysCall.open_ path flags]
  if c.m_fd < 0 then
    ⟨Except.error (id ++ "[ERROR] Could not open the serial port."), c, trace⟩
  else
    let trace := trace ++ [SysCall.tcgetattr c.m_fd]
    if os.tcgetattr_ret ≠ 0 then
      ⟨Except.error (id ++ "[ERROR] Could not get the serial port settings."), c, trace⟩
    else
      let tty := configure_tty os.tty
      let trace := trace ++ [SysCall.tcsetattr c.m_fd tty]
      if os.tcsetattr_ret ≠ 0 then
        ⟨Except.error (id ++ "[ERROR] Could not set the serial port settings."), c, trace⟩
      else
        ⟨Except.ok c.m_fd, c, trace⟩

/-- Replies of the operating system to `open_connection`: those of the two setups. -/
structure OpenOS where
  serial : SerialOS
  socket : SocketOS

/-- The third argument `open_connection` hands to `setup_socket` (line 58):
`((O_RDWR | O_NOCTTY) == flags) ? -1 : flags`. -/
def timeout_of_flags (flags : Int) : Int :=
  if default_flags = flags then -1 else flags

/-- Method `Client::open_connection` (com_client.cpp, lines 46-63). The value returned
by the setup is discarded; a string thrown by it leaves the method. -/
def open_connection (os : OpenOS) (c : Client) (address : String) (port flags : Int) :
    Outcome :=
  let c := { c with m_comm_mode := if port = -1 then Mode.SERIAL_MODE else Mode.SOCKET_MODE }
  let setup : Outcome :=
    match c.m_comm_mode with
    | Mode.SERIAL_MODE => setup_serial os.serial c address flags
    | Mode.SOCKET_MODE => setup_socket os.socket c address port (timeout_of_flags flags)
  match setup.result with
  | Except.error msg => ⟨Except.error msg, setup.client, setup.trace⟩
  | Except.ok _ =>
    ⟨Except.ok setup.client.m_fd, setup.client, setup.trace ++ [SysCall.usleep 100000]⟩

/-- Method `Client::close_connection` (com_client.cpp, lines 65-69):
`return closesocket(m_fd);` with `closesocket(s)` defined as `close(s)`. -/
def close_connection (close_ret : Int) (c : Client) : Outcome :=
  ⟨Except.ok close_ret, c, [SysCall.close c.m_fd]⟩

/-- A client as the constructor leaves it: `m_is_connected = false` (com_client.hpp,
line 196); descriptor and mode are not yet assigned, here -1 and socket mode. -/
def fresh_client : Client := ⟨-1, Mode.SOCKET_MODE, false⟩

/-- An operating system on which every call of `setup_serial` succeeds; `open` gives
descriptor 3. -/
def serial_os_ok : SerialOS := ⟨3, 0, ⟨0, 0, 0, 0, 0, 0, 0, 0⟩, 0⟩

/-- An operating system on which the socket is created as descriptor 3, the host is
found, `fcntl` succeeds, `connect` reports "in progress" (-1 with `EINPROGRESS`),
the readiness wait finds the socket ready and no socket error is pending. -/
def socket_os_ok : SocketOS :=
  { socket_ret := 3, gethostbyname_found := fun _ => true,
    set_nonblocking := ⟨2, 0⟩, connect_ret := -1, set_blocking := ⟨2050, 0⟩,
    errno_at_check := EINPROGRESS, select_ret := 1, getsockopt_ret := 0, so_error := 0,
    strerror := fun _ => "Connection refused" }

/-- As `socket_os_ok`, but `connect` fails at once with `ECONNREFUSED` (111). -/
def socket_os_refused : SocketOS :=
  { socket_os_ok with connect_ret := -1, errno_at_check := 111 }

/-- As `socket_os_ok`, but the readiness wait times out (`select` returns 0). -/
def socket_os_timeout : SocketOS :=
  { socket_os_ok with select_ret := 0 }

/-- An operating system on which a blocking `connect` succeeds at once (returns 0) and no
socket error is pending. -/
def socket_os_connected : SocketOS :=
  { socket_os_ok with connect_ret := 0, errno_at_check := 0 }

/-- As `socket_os_connected`, but every `F_GETFL` fails (returns -1). -/
def socket_os_getfl_fails : SocketOS :=
  { socket_os_connected with set_nonblocking := ⟨-1, 0⟩, set_blocking := ⟨-1, 0⟩ }

/-! ## HTTP::get and HTTP::post -/

/-- One call of the read/write interface made by `HTTP::get` or `HTTP::post`.
For `readS`, `capacity` is the declared length `n` of the array `char buffer[n]` whose
address is passed, and `size` the byte count passed (converted to `size_t`). -/
inductive HttpCall
  | writeS (buffer : String) (size : Nat)
  | readS (capacity : Int) (size : Nat) (has_crc : Bool) (read_until : Bool)
  deriving DecidableEq, Repr

/-- Method `HTTP::get` (http_client.cpp, lines 25-38): the calls issued up to and
including `readS`, when `writeS` does not throw. `ip` is the member `m_ip`; the header is
the `sprintf` of the template `m_header_get` (lines 19-22). The parsing of the answer
(lines 40-46) is not part of this definition. -/
def HTTP.get (ip page : String) (n : Int) : List HttpCall :=
  let capacity := n
  let m_header := "GET " ++ page ++ " HTTP/1.1\n" ++ "Host: " ++ ip ++ "\n"
    ++ "User-Agent: aightech\n" ++ "Accept: */*\n\n"
  let sent := [HttpCall.writeS m_header m_header.utf8ByteSize]
  let read_until := true
  let (n, read_until) := if n = -1 then ((2048 : Int), false) else (n, read_until)
  sent ++ [HttpCall.readS capacity (to_size_t n) false read_until]

/-- Method `HTTP::post` (http_client.cpp, lines 49-74): the calls issued up to and
including `readS`, when no `writeS` throws. `content = none` is a null pointer. The
headers are the `sprintf` of the templates of lines 8-18. The parsing of the answer
(lines 77-83) is not part of this definition. -/
def HTTP.post (ip page : String) (content : Option String) (n : Int) : List HttpCall :=
  let m_content_length : Nat :=
    match content with
    | some s => s.utf8ByteSize
    | none => 0
  let m_header :=
    if m_content_length > 0 then
      "POST " ++ page ++ " HTTP/1.1\n" ++ "Host: " ++ ip ++ "\n"
        ++ "User-Agent: aightech\n" ++ "Accept: */*\n"
        ++ "Content-Length: " ++ toString m_content_length ++ "\n"
        ++ "Content-Type: application/x-www-form-urlencoded\n\n"
    else
      "POST " ++ page ++ " HTTP/1.1\n" ++ "Host: " ++ ip ++ "\n"
        ++ "User-Agent: aightech\n" ++ "Accept: */*\n\n"
  let sent := [HttpCall.writeS m_header m_header.utf8ByteSize]
  let sent := if m_content_length > 0
    then sent ++ [HttpCall.writeS (content.getD "") m_content_length] else sent
  let read_until := true
  let (n, read_until) := if n = -1 then ((2048 : Int), false) else (n, read_until)
  let capacity := n
  sent ++ [HttpCall.readS capacity (to_size_t n) false read_until]

/-- Does every `readS` call in the list ask for no more bytes than the declared length
of the array it is given? -/
def reads_fit (calls : List HttpCall) : Bool :=
  calls.all fun call =>
    match call with
    | HttpCall.readS capacity size _ _ => decide ((size : Int) ≤ capacity)
    | HttpCall.writeS _ _ => true

/-- A connected socket-mode client on descriptor 3. -/
def socket_client : Client := ⟨3, Mode.SOCKET_MODE, true⟩

/-- A serial-mode client on descriptor 3. -/
def serial_client : Client := ⟨3, Mode.SERIAL_MODE, false⟩

/-! ## Theorems -/

theorem to_size_t_of_nonneg (n : Int) (h0 : 0 ≤ n) (h1 : n < 2 ^ 64) :
    to_size_t n = n.toNat := by
  unfold to_size_t
  rw [Int.emod_eq_of_lt h0 h1]

theorem to_int_of_small (n : Int) (h0 : -(2 ^ 31) ≤ n) (h1 : n < 2 ^ 31) : to_int n = n := by
  unfold to_int
  rw [Int.emod_eq_of_lt (by omega) (by omega)]
  omega

/-- A count in `0 ≤ n < size` makes `readS` throw "reading error: n/size". -/
theorem readS_short_count (os : TransportOS) (c : Client) (buffer : List Nat) (size : Nat)
    (n : Int) (hrecv : (os.recv c.m_fd size).ret = n) (hread : (os.read c.m_fd size).ret = n)
    (h0 : 0 ≤ n) (h1 : n < size) (h2 : n < 2 ^ 31) :
    (readS os c buffer size).1
      = Except.error ("reading error: " ++ toString n ++ "/" ++ toString size) := by
  have hn : to_int n = n := to_int_of_small n (by omega) h2
  have hs : to_size_t n < size := by
    rw [to_size_t_of_nonneg n h0 (by omega)]
    omega
  unfold readS
  cases hm : c.m_comm_mode <;> simp [hrecv, hread, hn, hs]

/-- A transport call that returns -1 makes `readS` and `writeS` return -1, for every
request size a `size_t` can hold. -/
theorem negative_count_returned (c : Client) (buffer : List Nat) (size : Nat)
    (h : size < 2 ^ 64) :
    (readS (constant_transport (-1)) c buffer size).1 = Except.ok (-1) ∧
    (writeS (constant_transport (-1)) c buffer size).1 = Except.ok (-1) := by
  have h1 : to_int (-1) = -1 := by decide
  have h2 : to_size_t (-1) = 2 ^ 64 - 1 := by decide
  have h3 : ¬ (2 ^ 64 - 1 < size) := by omega
  constructor
  · unfold readS
    cases hm : c.m_comm_mode <;> simp only [constant_transport, h1, h2, h3, if_false]
  · unfold writeS
    cases hm : c.m_comm_mode <;> simp only [constant_transport, h1, h2, h3, if_false]

/-- A first chunk shorter than the requested size makes `readS` throw, whatever chunks
follow it. -/
theorem readS_first_chunk_short (c : Client) (first : List Nat) (more : List (List Nat))
    (buffer : List Nat) (size : Nat) (h1 : first.length < size) (h2 : size < 2 ^ 31) :
    (readS (chunked_transport (first :: more)) c buffer size).1
      = Except.error ("reading error: " ++ toString (first.length : Int) ++ "/"
          ++ toString size) := by
  have ht : (first.take size).length = first.length := by
    rw [List.length_take]; omega
  apply readS_short_count
  · simp only [chunked_transport, List.headD_cons, ht]
  · simp only [chunked_transport, List.headD_cons, ht]
  · omega
  · exact_mod_cast h1
  · have : (first.length : Int) < size := by exact_mod_cast h1
    have : (size : Int) < 2 ^ 31 := by exact_mod_cast h2
    omega

/-- C2 (evaluation at the failing input): with `size = 4` and a transport call that
reports the error return `-1`, both `readS` and `writeS` return `-1` to the caller
instead of throwing, in socket mode and in serial mode: the comparison `n < size`
converts `-1` to `2^64 - 1`. -/
theorem readS_writeS_return_negative_count :
    to_size_t (-1) = 2 ^ 64 - 1 ∧
    (readS (constant_transport (-1)) socket_client [0, 0, 0, 0] 4).1 = Except.ok (-1) ∧
    (readS (constant_transport (-1)) serial_client [0, 0, 0, 0] 4).1 = Except.ok (-1) ∧
    (writeS (constant_transport (-1)) socket_client [1, 2, 3, 4] 4).1 = Except.ok (-1) ∧
    (writeS (constant_transport (-1)) serial_client [1, 2, 3, 4] 4).1 = Except.ok (-1) := by
  refine ⟨by decide, rfl, rfl, rfl, rfl⟩

/-- C1 (evaluation at the failing input): the four bytes 1,2,3,4 arrive in two chunks of
two bytes and four bytes are requested. `readS` issues one transport read, receives two
bytes and throws "reading error: 2/4"; it does not read again. -/
theorem readS_chunked_throws :
    (readS (chunked_transport [[1, 2], [3, 4]]) socket_client [0, 0, 0, 0] 4)
      = (Except.error "reading error: 2/4", [1, 2, 0, 0]) ∧
    (readS (chunked_transport [[1, 2], [3, 4]]) serial_client [0, 0, 0, 0] 4)
      = (Except.error "reading error: 2/4", [1, 2, 0, 0]) := by
  refine ⟨by rfl, by rfl⟩

/-! ### Connection state after open and close -/

theorem setup_serial_flag (os : SerialOS) (c : Client) (path : String) (flags : Int) :
    (setup_serial os c path flags).client.m_is_connected = c.m_is_connected := by
  unfold setup_serial
  simp only
  split_ifs <;> rfl

theorem setup_serial_fd (os : SerialOS) (c : Client) (path : String) (flags : Int) :
    (setup_serial os c path flags).client.m_fd = os.open_ret := by
  unfold setup_serial
  simp only
  split_ifs <;> rfl

theorem setup_socket_check_fd (os : SocketOS) (id : String) (c : Client)
    (trace : List SysCall) (res : Int) :
    (setup_socket_check os id c trace res).client.m_fd = c.m_fd := by
  unfold setup_socket_check
  simp only
  split_ifs <;> rfl

theorem setup_socket_wait_fd (os : SocketOS) (id : String) (c : Client)
    (trace : List SysCall) (res timeout : Int) :
    (setup_socket_wait os id c trace res timeout).client.m_fd = c.m_fd := by
  unfold setup_socket_wait
  simp only
  split_ifs <;> first | rfl | exact setup_socket_check_fd _ _ _ _ _

theorem setup_socket_fd (os : SocketOS) (c : Client) (address : String) (port timeout : Int) :
    (setup_socket os c address port timeout).client.m_fd = os.socket_ret := by
  unfold setup_socket
  simp only
  split_ifs <;> first | rfl | exact setup_socket_wait_fd _ _ _ _ _ _

/-- The settings `setup_serial` commits: from an all-zero `termios`, and from one whose
`c_cflag` carries other speed bits (0o17), parity and two stop bits, the control word
becomes `B500000 | CLOCAL | CREAD | CS8` (0o14265) and both speeds `B500000`. -/
theorem configure_tty_values :
    configure_tty ⟨0, 0, 0, 0, 0, 0, 0, 0⟩ = ⟨0, 0, 0o14265, 0, 4, 0, 0o10005, 0o10005⟩ ∧
    configure_tty ⟨0o2000, 0o5, 0o517, 0o13, 0, 1, 13, 13⟩
      = ⟨0, 0, 0o14265, 0, 4, 0, 0o10005, 0o10005⟩ := by
  constructor <;> decide

/-! ### The calls issued by the setups -/

theorem SetSocketBlockingEnabled_calls (os : FcntlOS) (c : Client) (blocking : Bool) :
    ∀ e ∈ (SetSocketBlockingEnabled os c blocking).2, e.is_fcntl = true := by
  unfold SetSocketBlockingEnabled
  simp only
  split_ifs <;> simp [SysCall.is_fcntl]

theorem setup_socket_check_trace (os : SocketOS) (id : String) (c : Client)
    (trace : List SysCall) (res : Int) :
    ∃ extra, (setup_socket_check os id c trace res).trace = trace ++ extra ∧
      ∀ e ∈ extra, e = SysCall.getsockopt c.m_fd := by
  unfold setup_socket_check
  simp only
  split_ifs
  · exact ⟨[SysCall.getsockopt c.m_fd], rfl, by simp⟩
  · exact ⟨[SysCall.getsockopt c.m_fd], rfl, by simp⟩
  · exact ⟨[SysCall.getsockopt c.m_fd], rfl, by simp⟩
  · exact ⟨[], by simp, by simp⟩

theorem setup_socket_wait_trace (os : SocketOS) (id : String) (c : Client)
    (trace : List SysCall) (res timeout : Int) :
    ∃ extra, (setup_socket_wait os id c trace res timeout).trace = trace ++ extra ∧
      (∀ e ∈ extra, e = SysCall.select (c.m_fd + 1) timeout 0 ∨ e = SysCall.getsockopt c.m_fd) ∧
      (¬ (res < 0 ∧ os.errno_at_check = EINPROGRESS) → ∀ e ∈ extra, e = SysCall.getsockopt c.m_fd) ∧
      ((res < 0 ∧ os.errno_at_check = EINPROGRESS) →
        ∃ tail, extra = SysCall.select (c.m_fd + 1) timeout 0 :: tail) := by
  unfold setup_socket_wait
  simp only
  split_ifs with h1 h2 h3
  · exact ⟨[SysCall.select (c.m_fd + 1) timeout 0], rfl, by simp, fun h => absurd h1 h,
      fun _ => ⟨[], rfl⟩⟩
  · exact ⟨[SysCall.select (c.m_fd + 1) timeout 0], rfl, by simp, fun h => absurd h1 h,
      fun _ => ⟨[], rfl⟩⟩
  · obtain ⟨extra, he, hall⟩ := setup_socket_check_trace os id c
      (trace ++ [SysCall.select (c.m_fd + 1) timeout 0]) 0
    refine ⟨SysCall.select (c.m_fd + 1) timeout 0 :: extra, ?_, ?_, fun h => absurd h1 h,
      fun _ => ⟨extra, rfl⟩⟩
    · rw [he]; simp
    · intro e he
      rcases List.mem_cons.mp he with h | h
      · exact Or.inl h
      · exact Or.inr (hall e h)
  · obtain ⟨extra, he, hall⟩ := setup_socket_check_trace os id c trace res
    exact ⟨extra, he, fun e h => Or.inr (hall e h), fun _ => hall, fun h => absurd h h1⟩

/-- The calls of a `setup_socket` run that gets as far as `connect`. -/
theorem setup_socket_trace (os : SocketOS) (c : Client) (address : String) (port timeout : Int)
    (hsock : os.socket_ret ≠ INVALID_SOCKET) (hhost : os.gethostbyname_found address = true) :
    ∃ extra, (setup_socket os c address port timeout).trace
        = [SysCall.socket, SysCall.gethostbyname address]
          ++ (if timeout ≠ -1 then
                (SetSocketBlockingEnabled os.set_nonblocking { c with m_fd := os.socket_ret } false).2
              else [])
          ++ [SysCall.connect os.socket_ret address (to_uint16 port)]
          ++ (if timeout ≠ -1 then
                (SetSocketBlockingEnabled os.set_blocking { c with m_fd := os.socket_ret } true).2
              else [])
          ++ extra ∧
      (∀ e ∈ extra, e = SysCall.select (os.socket_ret + 1) timeout 0
          ∨ e = SysCall.getsockopt os.socket_ret) ∧
      (¬ (os.connect_ret < 0 ∧ os.errno_at_check = EINPROGRESS) →
          ∀ e ∈ extra, e = SysCall.getsockopt os.socket_ret) ∧
      ((os.connect_ret < 0 ∧ os.errno_at_check = EINPROGRESS) →
          ∃ tail, extra = SysCall.select (os.socket_ret + 1) timeout 0 :: tail) := by
  unfold setup_socket
  simp only [hsock, hhost, if_false]
  by_cases ht : timeout = -1
  · obtain ⟨extra, he, h1, h2, h3⟩ := setup_socket_wait_trace os (endpoint_id address port)
      { c with m_fd := os.socket_ret }
      ([SysCall.socket] ++ [SysCall.gethostbyname address]
        ++ [SysCall.connect os.socket_ret address (to_uint16 port)]) os.connect_ret timeout
    refine ⟨extra, ?_, h1, h2, h3⟩
    simp only [ht, ne_eq, not_true_eq_false, if_false] at he ⊢
    simpa using he
  · obtain ⟨extra, he, h1, h2, h3⟩ := setup_socket_wait_trace os (endpoint_id address port)
      { c with m_fd := os.socket_ret }
      ([SysCall.socket] ++ [SysCall.gethostbyname address]
        ++ (SetSocketBlockingEnabled os.set_nonblocking { c with m_fd := os.socket_ret } false).2
        ++ [SysCall.connect os.socket_ret address (to_uint16 port)]
        ++ (SetSocketBlockingEnabled os.set_blocking { c with m_fd := os.socket_ret } true).2)
      os.connect_ret timeout
    refine ⟨extra, ?_, h1, h2, h3⟩
    simp only [ht, ne_eq, not_false_eq_true, if_true] at he ⊢
    simpa using he

theorem setup_socket_check_calls (os : SocketOS) (id : String) (c : Client)
    (trace : List SysCall) (res : Int) (h : ∀ e ∈ trace, e.is_socket_call = true) :
    ∀ e ∈ (setup_socket_check os id c trace res).trace, e.is_socket_call = true := by
  obtain ⟨extra, he, hall⟩ := setup_socket_check_trace os id c trace res
  rw [he]
  intro e hmem
  rcases List.mem_append.mp hmem with h1 | h1
  · exact h e h1
  · rw [hall e h1]; rfl

theorem setup_socket_wait_calls (os : SocketOS) (id : String) (c : Client)
    (trace : List SysCall) (res timeout : Int) (h : ∀ e ∈ trace, e.is_socket_call = true) :
    ∀ e ∈ (setup_socket_wait os id c trace res timeout).trace, e.is_socket_call = true := by
  obtain ⟨extra, he, hall, _, _⟩ := setup_socket_wait_trace os id c trace res timeout
  rw [he]
  intro e hmem
  rcases List.mem_append.mp hmem with h1 | h1
  · exact h e h1
  · rcases hall e h1 with h2 | h2 <;> rw [h2] <;> rfl

theorem is_fcntl_is_socket_call (e : SysCall) (h : e.is_fcntl = true) :
    e.is_socket_call = true := by
  cases e <;> simp_all [SysCall.is_fcntl, SysCall.is_socket_call]

theorem is_socket_call_not_serial (e : SysCall) (h : e.is_socket_call = true) :
    e.is_serial_call = false := by
  cases e <;> simp_all [SysCall.is_serial_call, SysCall.is_socket_call]

/-- Every call `setup_socket` issues is a socket call, and the first one is `socket`. -/
theorem setup_socket_calls (os : SocketOS) (c : Client) (address : String)
    (port timeout : Int) :
    (∀ e ∈ (setup_socket os c address port timeout).trace, e.is_socket_call = true) ∧
    (∃ tail, (setup_socket os c address port timeout).trace = SysCall.socket :: tail) := by
  by_cases hsock : os.socket_ret = INVALID_SOCKET
  · have : (setup_socket os c address port timeout).trace = [SysCall.socket] := by
      unfold setup_socket; simp [hsock]
    rw [this]
    exact ⟨by simp [SysCall.is_socket_call], ⟨[], rfl⟩⟩
  · by_cases hhost : os.gethostbyname_found address = true
    · obtain ⟨extra, he, hall, _, _⟩ := setup_socket_trace os c address port timeout hsock hhost
      rw [he]
      refine ⟨?_, ⟨_, by simp only [List.cons_append, List.nil_append]; rfl⟩⟩
      intro e hmem
      simp only [List.mem_append, List.mem_cons, List.mem_singleton, List.not_mem_nil,
        or_false] at hmem
      rcases hmem with (((( h | h ) | h) | h) | h) | h
      · rw [h]; rfl
      · rw [h]; rfl
      · split_ifs at h
        · exact is_fcntl_is_socket_call e (SetSocketBlockingEnabled_calls _ _ _ e h)
        · simp at h
      · rw [h]; rfl
      · split_ifs at h
        · exact is_fcntl_is_socket_call e (SetSocketBlockingEnabled_calls _ _ _ e h)
        · simp at h
      · rcases hall e h with h2 | h2 <;> rw [h2] <;> rfl
    · have hf : os.gethostbyname_found address = false := by simpa using hhost
      have : (setup_socket os c address port timeout).trace
          = [SysCall.socket, SysCall.gethostbyname address] := by
        unfold setup_socket; simp [hsock, hf]
      rw [this]
      exact ⟨by simp [SysCall.is_socket_call], ⟨_, rfl⟩⟩

/-- Every call `setup_serial` issues is a serial call, and the first one opens `path`
with `flags`. -/
theorem setup_serial_calls (os : SerialOS) (c : Client) (path : String) (flags : Int) :
    (∀ e ∈ (setup_serial os c path flags).trace, e.is_serial_call = true) ∧
    (∃ tail, (setup_serial os c path flags).trace = SysCall.open_ path flags :: tail) := by
  unfold setup_serial
  simp only
  split_ifs <;> exact ⟨by simp [SysCall.is_serial_call], ⟨_, rfl⟩⟩

theorem is_serial_call_not_socket (e : SysCall) (h : e.is_serial_call = true) :
    e.is_socket_call = false := by
  cases e <;> simp_all [SysCall.is_serial_call, SysCall.is_socket_call]

/-! ### open_connection -/

/-- How `open_connection` wraps the outcome of the setup it ran. -/
theorem open_connection_wrap (setup : Outcome) :
    (match setup.result with
      | Except.error msg => (⟨Except.error msg, setup.client, setup.trace⟩ : Outcome)
      | Except.ok _ =>
        ⟨Except.ok setup.client.m_fd, setup.client, setup.trace ++ [SysCall.usleep 100000]⟩)
      = ⟨Except.map (fun _ => setup.client.m_fd) setup.result, setup.client,
          setup.trace ++ (match setup.result with
            | Except.error _ => []
            | Except.ok _ => [SysCall.usleep 100000])⟩ := by
  cases h : setup.result <;> simp [Except.map]

theorem open_connection_serial (os : OpenOS) (c : Client) (address : String) (port flags : Int)
    (hport : port = -1) :
    open_connection os c address port flags
      = ⟨Except.map
            (fun _ => (setup_serial os.serial { c with m_comm_mode := Mode.SERIAL_MODE }
              address flags).client.m_fd)
            (setup_serial os.serial { c with m_comm_mode := Mode.SERIAL_MODE } address flags).result,
          (setup_serial os.serial { c with m_comm_mode := Mode.SERIAL_MODE } address flags).client,
          (setup_serial os.serial { c with m_comm_mode := Mode.SERIAL_MODE } address flags).trace
            ++ (match (setup_serial os.serial { c with m_comm_mode := Mode.SERIAL_MODE }
                  address flags).result with
                | Except.error _ => []
                | Except.ok _ => [SysCall.usleep 100000])⟩ := by
  unfold open_connection
  simp only [hport, if_true]
  exact open_connection_wrap _

theorem open_connection_socket (os : OpenOS) (c : Client) (address : String) (port flags : Int)
    (hport : port ≠ -1) :
    open_connection os c address port flags
      = ⟨Except.map
            (fun _ => (setup_socket os.socket { c with m_comm_mode := Mode.SOCKET_MODE }
              address port (timeout_of_flags flags)).client.m_fd)
            (setup_socket os.socket { c with m_comm_mode := Mode.SOCKET_MODE } address port
              (timeout_of_flags flags)).result,
          (setup_socket os.socket { c with m_comm_mode := Mode.SOCKET_MODE } address port
              (timeout_of_flags flags)).client,
          (setup_socket os.socket { c with m_comm_mode := Mode.SOCKET_MODE } address port
              (timeout_of_flags flags)).trace
            ++ (match (setup_socket os.socket { c with m_comm_mode := Mode.SOCKET_MODE }
                  address port (timeout_of_flags flags)).result with
                | Except.error _ => []
                | Except.ok _ => [SysCall.usleep 100000])⟩ := by
  unfold open_connection
  simp only [hport, if_false]
  exact open_connection_wrap _

theorem usleep_tail_mem (r : Except String Int) (e : SysCall)
    (h : e ∈ (match r with
      | Except.error _ => ([] : List SysCall)
      | Except.ok _ => [SysCall.usleep 100000])) : e = SysCall.usleep 100000 := by
  cases r <;> simp at h
  exact h

/-- C7: `open_connection` runs `setup_serial address flags` when `port = -1` and
`setup_socket address port` otherwise, never both: in the first case its calls start
with `open(address, flags)` and none is a socket call, in the second they start with
`socket` and none is a serial call; client state and thrown string are those of the
setup that ran, and a returned value is the descriptor `m_fd` that this setup stored
(the result of `open`, respectively of `socket`). -/
theorem open_connection_dispatch (os : OpenOS) (c : Client) (address : String)
    (port flags : Int) :
    (port = -1 →
      (∃ tail, (open_connection os c address port flags).trace
          = SysCall.open_ address flags :: tail) ∧
      (∀ e ∈ (open_connection os c address port flags).trace, e.is_socket_call = false) ∧
      (open_connection os c address port flags).client
        = (setup_serial os.serial { c with m_comm_mode := Mode.SERIAL_MODE }
            address flags).client ∧
      (open_connection os c address port flags).result
        = Except.map (fun _ => os.serial.open_ret)
            (setup_serial os.serial { c with m_comm_mode := Mode.SERIAL_MODE }
              address flags).result ∧
      (open_connection os c address port flags).client.m_fd = os.serial.open_ret) ∧
    (port ≠ -1 →
      (∃ tail, (open_connection os c address port flags).trace = SysCall.socket :: tail) ∧
      (∀ e ∈ (open_connection os c address port flags).trace, e.is_serial_call = false) ∧
      (open_connection os c address port flags).client
        = (setup_socket os.socket { c with m_comm_mode := Mode.SOCKET_MODE }
            address port (timeout_of_flags flags)).client ∧
      (open_connection os c address port flags).result
        = Except.map (fun _ => os.socket.socket_ret)
            (setup_socket os.socket { c with m_comm_mode := Mode.SOCKET_MODE }
              address port (timeout_of_flags flags)).result ∧
      (open_connection os c address port flags).client.m_fd = os.socket.socket_ret) ∧
    (∀ fd, (open_connection os c address port flags).result = Except.ok fd →
      fd = (open_connection os c address port flags).client.m_fd) := by
  refine ⟨?_, ?_, ?_⟩
  · intro hport
    rw [open_connection_serial os c address port flags hport]
    obtain ⟨hcalls, tail, htail⟩ :=
      setup_serial_calls os.serial { c with m_comm_mode := Mode.SERIAL_MODE } address flags
    refine ⟨⟨_, by rw [htail, List.cons_append]⟩, ?_, rfl, ?_, ?_⟩
    · intro e hmem
      rcases List.mem_append.mp hmem with h | h
      · exact is_serial_call_not_socket e (hcalls e h)
      · rw [usleep_tail_mem _ e h]; rfl
    · simp only [setup_serial_fd]
    · exact setup_serial_fd _ _ _ _
  · intro hport
    rw [open_connection_socket os c address port flags hport]
    obtain ⟨hcalls, tail, htail⟩ :=
      setup_socket_calls os.socket { c with m_comm_mode := Mode.SOCKET_MODE } address port
        (timeout_of_flags flags)
    refine ⟨⟨_, by rw [htail, List.cons_append]⟩, ?_, rfl, ?_, ?_⟩
    · intro e hmem
      rcases List.mem_append.mp hmem with h | h
      · exact is_socket_call_not_serial e (hcalls e h)
      · rw [usleep_tail_mem _ e h]; rfl
    · simp only [setup_socket_fd]
    · exact setup_socket_fd _ _ _ _ _
  · intro fd hfd
    by_cases hport : port = -1
    · rw [open_connection_serial os c address port flags hport] at hfd ⊢
      simp only at hfd ⊢
      cases hr : (setup_serial os.serial { c with m_comm_mode := Mode.SERIAL_MODE }
          address flags).result <;> rw [hr] at hfd <;> simp [Except.map] at hfd
      exact hfd.symm
    · rw [open_connection_socket os c address port flags hport] at hfd ⊢
      simp only at hfd ⊢
      cases hr : (setup_socket os.socket { c with m_comm_mode := Mode.SOCKET_MODE }
          address port (timeout_of_flags flags)).result <;> rw [hr] at hfd <;>
        simp [Except.map] at hfd
      exact hfd.symm

/-- Witness for C7: a serial open (port -1) and a socket open (port 5000). -/
theorem open_connection_dispatch_witness :
    (∃ tail, (open_connection ⟨serial_os_ok, socket_os_ok⟩ fresh_client "/dev/ttyUSB0" (-1)
        default_flags).trace = SysCall.open_ "/dev/ttyUSB0" default_flags :: tail) ∧
    (∃ tail, (open_connection ⟨serial_os_ok, socket_os_ok⟩ fresh_client "10.0.0.1" 5000
        2).trace = SysCall.socket :: tail) :=
  ⟨((open_connection_dispatch ⟨serial_os_ok, socket_os_ok⟩ fresh_client "/dev/ttyUSB0" (-1)
      default_flags).1 rfl).1,
   ((open_connection_dispatch ⟨serial_os_ok, socket_os_ok⟩ fresh_client "10.0.0.1" 5000
      2).2.1 (by decide)).1⟩

/-! ### The readiness wait of setup_socket -/

theorem setup_socket_check_any_trace (os : SocketOS) (id : String) (c : Client)
    (trace : List SysCall) (res : Int) :
    (setup_socket_check os id c trace res).result = (setup_socket_check os id c [] res).result ∧
    (setup_socket_check os id c trace res).client = (setup_socket_check os id c [] res).client := by
  unfold setup_socket_check
  simp only
  split_ifs <;> exact ⟨rfl, rfl⟩

theorem setup_socket_wait_any_trace (os : SocketOS) (id : String) (c : Client)
    (trace : List SysCall) (res timeout : Int) :
    (setup_socket_wait os id c trace res timeout).result
      = (setup_socket_wait os id c [] res timeout).result ∧
    (setup_socket_wait os id c trace res timeout).client
      = (setup_socket_wait os id c [] res timeout).client := by
  unfold setup_socket_wait
  simp only
  split_ifs
  · exact ⟨rfl, rfl⟩
  · exact ⟨rfl, rfl⟩
  · have h1 := setup_socket_check_any_trace os id c
      (trace ++ [SysCall.select (c.m_fd + 1) timeout 0]) 0
    have h2 := setup_socket_check_any_trace os id c
      ([] ++ [SysCall.select (c.m_fd + 1) timeout 0]) 0
    exact ⟨h1.1.trans h2.1.symm, h1.2.trans h2.2.symm⟩
  · exact setup_socket_check_any_trace os id c trace res

/-- Result and client of a `setup_socket` run that gets as far as `connect`. -/
theorem setup_socket_reaches_wait (os : SocketOS) (c : Client) (address : String)
    (port timeout : Int)
    (hsock : os.socket_ret ≠ INVALID_SOCKET) (hhost : os.gethostbyname_found address = true) :
    (setup_socket os c address port timeout).result
      = (setup_socket_wait os (endpoint_id address port) { c with m_fd := os.socket_ret } []
          os.connect_ret timeout).result ∧
    (setup_socket os c address port timeout).client
      = (setup_socket_wait os (endpoint_id address port) { c with m_fd := os.socket_ret } []
          os.connect_ret timeout).client := by
  unfold setup_socket
  simp only [hsock, hhost, if_false]
  exact setup_socket_wait_any_trace _ _ _ _ _ _

/-- The connection flag after `setup_socket_check`: set exactly on the path without error. -/
theorem setup_socket_check_flag (os : SocketOS) (id : String) (c : Client)
    (trace : List SysCall) (res : Int) :
    (∀ msg, (setup_socket_check os id c trace res).result = Except.error msg →
      (setup_socket_check os id c trace res).client.m_is_connected = c.m_is_connected) ∧
    ((setup_socket_check os id c trace res).client.m_is_connected ≠ c.m_is_connected →
      res = 0 ∧ 0 ≤ os.getsockopt_ret ∧ os.so_error = 0) := by
  unfold setup_socket_check
  simp only
  split_ifs with h1 h2 h3
  · exact ⟨fun _ _ => rfl, fun h => absurd rfl h⟩
  · exact ⟨fun _ _ => rfl, fun h => absurd rfl h⟩
  · refine ⟨fun msg h => ?_, fun _ => ⟨h1, by omega, by simpa using h3⟩⟩
    simp at h
  · exact ⟨fun _ _ => rfl, fun h => absurd rfl h⟩

theorem setup_socket_wait_flag (os : SocketOS) (id : String) (c : Client)
    (trace : List SysCall) (res timeout : Int) :
    (∀ msg, (setup_socket_wait os id c trace res timeout).result = Except.error msg →
      (setup_socket_wait os id c trace res timeout).client.m_is_connected = c.m_is_connected) ∧
    ((setup_socket_wait os id c trace res timeout).client.m_is_connected ≠ c.m_is_connected →
      0 ≤ os.getsockopt_ret ∧ os.so_error = 0) := by
  unfold setup_socket_wait
  simp only
  split_ifs
  · exact ⟨fun _ _ => rfl, fun h => absurd rfl h⟩
  · exact ⟨fun _ _ => rfl, fun h => absurd rfl h⟩
  · exact ⟨(setup_socket_check_flag os id c _ 0).1,
      fun h => ((setup_socket_check_flag os id c _ 0).2 h).2⟩
  · exact ⟨(setup_socket_check_flag os id c _ res).1,
      fun h => ((setup_socket_check_flag os id c _ res).2 h).2⟩

/-- In every run of `setup_socket` that throws, the connection flag keeps its value; the
flag changes only when `getsockopt` succeeded and reported no pending error. -/
theorem setup_socket_flag (os : SocketOS) (c : Client) (address : String)
    (port timeout : Int) :
    (∀ msg, (setup_socket os c address port timeout).result = Except.error msg →
      (setup_socket os c address port timeout).client.m_is_connected = c.m_is_connected) ∧
    ((setup_socket os c address port timeout).client.m_is_connected ≠ c.m_is_connected →
      0 ≤ os.getsockopt_ret ∧ os.so_error = 0) := by
  unfold setup_socket
  simp only
  split_ifs <;> first
    | exact ⟨fun _ _ => rfl, fun h => absurd rfl h⟩
    | exact setup_socket_wait_flag os _ { c with m_fd := os.socket_ret } _ _ _

/-- A `setup_socket` run that gets as far as `connect` continues with the test of
line 105 after the calls listed here. -/
theorem setup_socket_eq_wait (os : SocketOS) (c : Client) (address : String)
    (port timeout : Int)
    (hsock : os.socket_ret ≠ INVALID_SOCKET) (hhost : os.gethostbyname_found address = true) :
    setup_socket os c address port timeout
      = setup_socket_wait os (endpoint_id address port) { c with m_fd := os.socket_ret }
          ([SysCall.socket, SysCall.gethostbyname address]
            ++ (if timeout ≠ -1 then
                  (SetSocketBlockingEnabled os.set_nonblocking
                    { c with m_fd := os.socket_ret } false).2
                else [])
            ++ [SysCall.connect os.socket_ret address (to_uint16 port)]
            ++ (if timeout ≠ -1 then
                  (SetSocketBlockingEnabled os.set_blocking
                    { c with m_fd := os.socket_ret } true).2
                else []))
          os.connect_ret timeout := by
  unfold setup_socket
  simp only [hsock, hhost, if_false]
  by_cases ht : timeout = -1
  · simp [ht]
  · simp [ht]

/-- No `getsockopt` is among the calls issued up to the test of line 105. -/
theorem no_getsockopt_before_wait (os : SocketOS) (c : Client) (address : String)
    (port timeout : Int) (fd : Int) :
    SysCall.getsockopt fd ∉
      ([SysCall.socket, SysCall.gethostbyname address]
        ++ (if timeout ≠ -1 then
              (SetSocketBlockingEnabled os.set_nonblocking
                { c with m_fd := os.socket_ret } false).2
            else [])
        ++ [SysCall.connect os.socket_ret address (to_uint16 port)]
        ++ (if timeout ≠ -1 then
              (SetSocketBlockingEnabled os.set_blocking
                { c with m_fd := os.socket_ret } true).2
            else [])) := by
  intro hmem
  have hf : ∀ (o : FcntlOS) (b : Bool),
      SysCall.getsockopt fd ∉ (SetSocketBlockingEnabled o { c with m_fd := os.socket_ret } b).2 := by
    intro o b he
    have := SetSocketBlockingEnabled_calls _ _ _ _ he
    simp [SysCall.is_fcntl] at this
  simp only [List.mem_append, List.mem_cons, List.mem_singleton, List.not_mem_nil,
    or_false] at hmem
  rcases hmem with ((( h | h ) | h) | h) | h
  · cases h
  · cases h
  · split_ifs at h
    · exact hf _ _ h
    · simp at h
  · cases h
  · split_ifs at h
    · exact hf _ _ h
    · simp at h

/-- C9: in a `setup_socket` run whose `connect` reported "in progress" (a negative
result with `errno == EINPROGRESS`), a `select` result 0 throws "... Connection timed
out", a result -1 throws "... Error with select()" and in neither case is the pending
error read; a positive result leads to the `getsockopt` check, where a non-zero pending
error throws the text `strerror` gives for that code and a zero one returns 1 with the
connection flag set. The flag changes only for a zero pending error, and in every
run that throws it keeps the value it had. -/
theorem setup_socket_wait_classification (os : SocketOS) (c : Client) (address : String)
    (port timeout : Int)
    (hsock : os.socket_ret ≠ INVALID_SOCKET) (hhost : os.gethostbyname_found address = true)
    (hprog : os.connect_ret < 0 ∧ os.errno_at_check = EINPROGRESS) :
    (os.select_ret = 0 →
      (setup_socket os c address port timeout).result
        = Except.error (endpoint_id address port ++ " Connection timed out") ∧
      SysCall.getsockopt os.socket_ret ∉ (setup_socket os c address port timeout).trace) ∧
    (os.select_ret = -1 →
      (setup_socket os c address port timeout).result
        = Except.error (endpoint_id address port ++ " Error with select()") ∧
      SysCall.getsockopt os.socket_ret ∉ (setup_socket os c address port timeout).trace) ∧
    (0 < os.select_ret →
      SysCall.getsockopt os.socket_ret ∈ (setup_socket os c address port timeout).trace ∧
      (0 ≤ os.getsockopt_ret → os.so_error ≠ 0 →
        (setup_socket os c address port timeout).result
          = Except.error (endpoint_id address port ++ " " ++ os.strerror os.so_error)) ∧
      (0 ≤ os.getsockopt_ret → os.so_error = 0 →
        (setup_socket os c address port timeout).result = Except.ok 1 ∧
        is_connected (setup_socket os c address port timeout).client = true)) ∧
    (is_connected (setup_socket os c address port timeout).client ≠ is_connected c →
      os.so_error = 0) ∧
    (∀ msg, (setup_socket os c address port timeout).result = Except.error msg →
      is_connected (setup_socket os c address port timeout).client = is_connected c) := by
  have hflag := setup_socket_flag os c address port timeout
  have hno := no_getsockopt_before_wait os c address port timeout os.socket_ret
  rw [setup_socket_eq_wait os c address port timeout hsock hhost] at hflag ⊢
  unfold setup_socket_wait at hflag ⊢
  simp only [hprog, and_self, if_true] at hflag ⊢
  refine ⟨?_, ?_, ?_, ?_, ?_⟩
  · intro h0
    simp only [h0, if_true]
    refine ⟨by simp, ?_⟩
    intro hmem
    rcases List.mem_append.mp hmem with h | h
    · exact hno h
    · simp at h
  · intro h1
    simp only [h1, if_true]
    refine ⟨trivial, ?_⟩
    intro hmem
    rcases List.mem_append.mp hmem with h | h
    · exact hno h
    · simp at h
  · intro hpos
    have hne1 : os.select_ret ≠ -1 := by omega
    have hne0 : os.select_ret ≠ 0 := by omega
    simp only [hne1, hne0, if_false]
    unfold setup_socket_check
    simp only [if_true]
    refine ⟨?_, ?_, ?_⟩
    · split_ifs <;> simp
    · intro hg he
      have : ¬ os.getsockopt_ret < 0 := by omega
      simp [this, he]
    · intro hg he
      have : ¬ os.getsockopt_ret < 0 := by omega
      simp [this, he, is_connected]
  · intro hne
    exact (hflag.2 hne).2
  · intro msg hmsg
    exact hflag.1 msg hmsg

/-! ### The connect timeout -/

theorem timeout_of_flags_eq_neg_one (flags : Int) :
    timeout_of_flags flags = -1 ↔ (flags = -1 ∨ flags = default_flags) := by
  unfold timeout_of_flags
  split_ifs with h
  · exact ⟨fun _ => Or.inr h.symm, fun _ => rfl⟩
  · constructor
    · intro h1; exact Or.inl h1
    · rintro (h1 | h1)
      · exact h1
      · exact absurd h1.symm h

theorem timeout_of_flags_other (flags : Int) (h : flags ≠ default_flags) :
    timeout_of_flags flags = flags := by
  unfold timeout_of_flags
  rw [if_neg (fun h1 => h h1.symm)]

theorem set_nonblocking_calls (os : FcntlOS) (c : Client) (hfd : 0 ≤ c.m_fd) :
    (SetSocketBlockingEnabled os c false).2
      = SysCall.fcntl_getfl c.m_fd ::
          (if os.getfl_ret = -1 then []
           else [SysCall.fcntl_setfl c.m_fd (Int.lor os.getfl_ret O_NONBLOCK)]) := by
  unfold SetSocketBlockingEnabled
  have : ¬ c.m_fd < 0 := by omega
  by_cases hget : os.getfl_ret = -1
  · simp [this, hget]
  · simp [this, hget]

/-- C6, as amended: an `open_connection` call in socket mode (`port ≠ -1`) whose socket
is created and whose host is found. The timeout is the third argument `flags`; leaving it
out passes the default `O_RDWR | O_NOCTTY` (258).
* With `flags = -1` or `flags = 258`, no `fcntl` call is issued at all, so the socket stays
  in the blocking mode it was created in, `connect` is issued, and no `select` is issued
  unless that `connect` reports "in progress".
* With any other `flags = t`, the calls start with `socket`, `gethostbyname`, `F_GETFL`,
  then, when `F_GETFL` did not return -1, `F_SETFL` with `O_NONBLOCK` added, then
  `connect`; every `select` issued has the timeout `t` seconds and 0 microseconds, and
  one is issued when `connect` reports "in progress". -/
theorem open_connection_timeout (os : OpenOS) (c : Client) (address : String)
    (port flags : Int) (hport : port ≠ -1)
    (hsock : 0 ≤ os.socket.socket_ret)
    (hhost : os.socket.gethostbyname_found address = true) :
    ((flags = -1 ∨ flags = default_flags) →
      (∀ e ∈ (open_connection os c address port flags).trace, e.is_fcntl = false) ∧
      SysCall.connect os.socket.socket_ret address (to_uint16 port)
        ∈ (open_connection os c address port flags).trace ∧
      (¬ (os.socket.connect_ret < 0 ∧ os.socket.errno_at_check = EINPROGRESS) →
        ∀ e ∈ (open_connection os c address port flags).trace, e.is_select = false)) ∧
    (flags ≠ -1 → flags ≠ default_flags →
      (∃ rest, (open_connection os c address port flags).trace
          = [SysCall.socket, SysCall.gethostbyname address,
              SysCall.fcntl_getfl os.socket.socket_ret]
            ++ (if os.socket.set_nonblocking.getfl_ret = -1 then []
                else [SysCall.fcntl_setfl os.socket.socket_ret
                  (Int.lor os.socket.set_nonblocking.getfl_ret O_NONBLOCK)])
            ++ [SysCall.connect os.socket.socket_ret address (to_uint16 port)]
            ++ (SetSocketBlockingEnabled os.socket.set_blocking
                  { m_fd := os.socket.socket_ret, m_comm_mode := Mode.SOCKET_MODE,
                    m_is_connected := c.m_is_connected } true).2
            ++ rest) ∧
      (∀ nfds tv_sec tv_usec,
        SysCall.select nfds tv_sec tv_usec ∈ (open_connection os c address port flags).trace →
        tv_sec = flags ∧ tv_usec = 0) ∧
      ((os.socket.connect_ret < 0 ∧ os.socket.errno_at_check = EINPROGRESS) →
        SysCall.select (os.socket.socket_ret + 1) flags 0
          ∈ (open_connection os c address port flags).trace)) := by
  have hs : os.socket.socket_ret ≠ INVALID_SOCKET := by
    unfold INVALID_SOCKET; omega
  rw [open_connection_socket os c address port flags hport]
  simp only
  obtain ⟨extra, htr, hall, hnot, hsel⟩ :=
    setup_socket_trace os.socket { c with m_comm_mode := Mode.SOCKET_MODE } address port
      (timeout_of_flags flags) hs hhost
  rw [htr]
  refine ⟨?_, ?_⟩
  · intro hflags
    have ht : timeout_of_flags flags = -1 := (timeout_of_flags_eq_neg_one flags).mpr hflags
    simp only [ht, ne_eq, not_true_eq_false, if_false, List.append_nil]
    refine ⟨?_, by simp, ?_⟩
    · intro e hmem
      simp only [List.mem_append, List.mem_cons, List.mem_singleton, List.not_mem_nil,
        or_false] at hmem
      rcases hmem with (((h | h) | h) | h) | h
      · rw [h]; rfl
      · rw [h]; rfl
      · rw [h]; rfl
      · rcases hall e h with h2 | h2 <;> rw [h2] <;> rfl
      · rw [usleep_tail_mem _ e h]; rfl
    · intro hnp e hmem
      simp only [List.mem_append, List.mem_cons, List.mem_singleton, List.not_mem_nil,
        or_false] at hmem
      rcases hmem with (((h | h) | h) | h) | h
      · rw [h]; rfl
      · rw [h]; rfl
      · rw [h]; rfl
      · rw [hnot hnp e h]; rfl
      · rw [usleep_tail_mem _ e h]; rfl
  · intro h1 h2
    have ht : timeout_of_flags flags = flags := timeout_of_flags_other flags h2
    simp only [ht, ne_eq, h1, not_false_eq_true, if_true]
    rw [ht] at hall hsel
    refine ⟨?_, ?_, ?_⟩
    · rw [set_nonblocking_calls os.socket.set_nonblocking _ hsock]
      exact ⟨_, by simp only [List.cons_append, List.nil_append, List.append_assoc,
        List.singleton_append]; rfl⟩
    · intro nfds tv_sec tv_usec hmem
      have hf : ∀ (o : FcntlOS) (b : Bool), SysCall.select nfds tv_sec tv_usec ∉
          (SetSocketBlockingEnabled o
            { m_fd := os.socket.socket_ret, m_comm_mode := Mode.SOCKET_MODE,
              m_is_connected := c.m_is_connected } b).2 := by
        intro o b he
        have := SetSocketBlockingEnabled_calls _ _ _ _ he
        simp [SysCall.is_fcntl] at this
      simp only [List.mem_append, List.mem_cons, List.mem_singleton, List.not_mem_nil,
        or_false] at hmem
      rcases hmem with ((((( h | h ) | h) | h) | h) | h) | h
      · cases h
      · cases h
      · exact absurd h (hf _ _)
      · cases h
      · exact absurd h (hf _ _)
      · rcases hall _ h with h3 | h3
        · cases h3; exact ⟨rfl, rfl⟩
        · cases h3
      · have := usleep_tail_mem _ _ h
        cases this
    · intro hprog
      obtain ⟨tail, htail⟩ := hsel hprog
      rw [htail]
      simp

/-! ### The bytes writeS transmits -/

/-- A whole frame delivered by one transport read is returned by `readS`. -/
theorem readS_whole_frame (c : Client) (frame buffer : List Nat) (h : frame.length < 2 ^ 31) :
    readS (chunked_transport [frame]) c buffer frame.length
      = (Except.ok (frame.length : Int), frame ++ buffer.drop frame.length) := by
  have hn : to_int (frame.length : Int) = frame.length :=
    to_int_of_small _ (by omega) (by exact_mod_cast h)
  have hs : to_size_t (frame.length : Int) = frame.length := by
    rw [to_size_t_of_nonneg _ (by omega) (by
      have : (frame.length : Int) < 2 ^ 31 := by exact_mod_cast h
      omega)]
    simp
  unfold readS
  cases hm : c.m_comm_mode <;>
    simp [chunked_transport, hn, hs, store]

/-- C3 (evaluation at the failing inputs): on a client whose flag is `false`,
`open_connection` in serial mode with `open`, `tcgetattr` and `tcsetattr` all succeeding
returns the descriptor 3 without throwing and `is_connected()` is still `false`; so does
`open_connection` in socket mode when `connect` fails at once with `ECONNREFUSED`.
For every serial open the flag keeps the value it had. -/
theorem open_connection_returns_unconnected :
    (open_connection ⟨serial_os_ok, socket_os_ok⟩ fresh_client "/dev/ttyUSB0" (-1)
      default_flags).result = Except.ok 3 ∧
    is_connected (open_connection ⟨serial_os_ok, socket_os_ok⟩ fresh_client "/dev/ttyUSB0" (-1)
      default_flags).client = false ∧
    (open_connection ⟨serial_os_ok, socket_os_refused⟩ fresh_client "10.0.0.1" 5000
      default_flags).result = Except.ok 3 ∧
    is_connected (open_connection ⟨serial_os_ok, socket_os_refused⟩ fresh_client "10.0.0.1" 5000
      default_flags).client = false ∧
    (∀ (os : OpenOS) (c : Client) (address : String) (flags : Int),
      is_connected (open_connection os c address (-1) flags).client = is_connected c) := by
  refine ⟨rfl, rfl, rfl, rfl, ?_⟩
  intro os c address flags
  rw [open_connection_serial os c address (-1) flags rfl]
  exact setup_serial_flag _ _ _ _

/-- C4 (evaluation at the failing input): `close_connection` on the connected client
`socket_client` returns the result of `close(3)` and `is_connected()` is still `true`;
for every client the flag after `close_connection` is the flag before it. -/
theorem close_connection_keeps_flag :
    is_connected socket_client = true ∧
    (close_connection 0 socket_client).result = Except.ok 0 ∧
    (close_connection 0 socket_client).trace = [SysCall.close 3] ∧
    is_connected (close_connection 0 socket_client).client = true ∧
    (∀ (close_ret : Int) (c : Client),
      is_connected (close_connection close_ret c).client = is_connected c) :=
  ⟨rfl, rfl, rfl, rfl, fun _ _ => rfl⟩

/-! ### Receive buffer of the HTTP methods -/

/-- C10 (evaluation at the failing input): with the sentinel `n = -1`, `HTTP::get`
declares `char buffer[n]` before it replaces `n` by 2048, so `readS` is asked for 2048
bytes for an array of declared length -1; `HTTP::post` declares the array after the
replacement and asks for 2048 bytes for an array of 2048. -/
theorem HTTP_get_sentinel_overruns_buffer :
    HttpCall.readS (-1) 2048 false false ∈ HTTP.get "10.0.0.1" "/index" (-1) ∧
    reads_fit (HTTP.get "10.0.0.1" "/index" (-1)) = false ∧
    HttpCall.readS 2048 2048 false false ∈ HTTP.post "10.0.0.1" "/index" none (-1) ∧
    reads_fit (HTTP.post "10.0.0.1" "/index" none (-1)) = true ∧
    (∀ ip page : String, reads_fit (HTTP.get ip page (-1)) = false) := by
  refine ⟨?_, ?_, ?_, ?_, ?_⟩
  · simp [HTTP.get]; decide
  · simp [HTTP.get, reads_fit]; decide
  · simp [HTTP.post]; decide
  · simp [HTTP.post, reads_fit]; decide
  · intro ip page
    have h : ¬ ((to_size_t 2048 : Nat) : Int) ≤ -1 := by decide
    simp [HTTP.get, reads_fit, h]

/-- For a count `n` in the range `0 ≤ n < 2^31`, `HTTP::get` asks `readS` for exactly the
declared length of its array, and so does `HTTP::post`, also for the sentinel -1. -/
theorem HTTP_reads_fit (ip page : String) (content : Option String) (n : Int)
    (h0 : 0 ≤ n) (h1 : n < 2 ^ 31) :
    reads_fit (HTTP.get ip page n) = true ∧
    reads_fit (HTTP.post ip page content n) = true ∧
    reads_fit (HTTP.post ip page content (-1)) = true := by
  have hn : n ≠ -1 := by omega
  have hs : ((to_size_t n : Nat) : Int) ≤ n := by
    rw [to_size_t_of_nonneg n h0 (by omega)]
    omega
  have h2 : ((to_size_t 2048 : Nat) : Int) ≤ 2048 := by decide
  refine ⟨?_, ?_, ?_⟩
  · simp [HTTP.get, reads_fit, hn, hs]
  · unfold HTTP.post
    simp only [hn, if_false]
    split_ifs <;> simp [reads_fit, hs]
  · unfold HTTP.post
    simp only [if_true]
    split_ifs <;> simp [reads_fit, h2]

/-! ### Error messages -/

theorem setup_socket_check_message (os : SocketOS) (id : String) (c : Client)
    (trace : List SysCall) (res : Int) (msg : String)
    (h : (setup_socket_check os id c trace res).result = Except.error msg) :
    ∃ rest, msg = id ++ rest := by
  unfold setup_socket_check at h
  simp only at h
  split_ifs at h
  · exact ⟨_, (Except.error.inj h).symm⟩
  · refine ⟨" " ++ os.strerror os.so_error, ?_⟩
    rw [← String.append_assoc]
    exact (Except.error.inj h).symm

theorem setup_socket_wait_message (os : SocketOS) (id : String) (c : Client)
    (trace : List SysCall) (res timeout : Int) (msg : String)
    (h : (setup_socket_wait os id c trace res timeout).result = Except.error msg) :
    ∃ rest, msg = id ++ rest := by
  unfold setup_socket_wait at h
  simp only at h
  split_ifs at h
  · exact ⟨_, (Except.error.inj h).symm⟩
  · exact ⟨_, (Except.error.inj h).symm⟩
  · exact setup_socket_check_message os id c _ _ msg h
  · exact setup_socket_check_message os id c _ _ msg h

theorem digitChar_ne_bracket (d : Nat) (h : d < 10) : Nat.digitChar d ≠ '[' := by
  interval_cases d <;> decide

theorem toDigitsCore_no_bracket (fuel : Nat) : ∀ (n : Nat) (ds : List Char),
    '[' ∉ ds → '[' ∉ Nat.toDigitsCore 10 fuel n ds := by
  induction fuel with
  | zero => intro n ds h; simpa [Nat.toDigitsCore] using h
  | succ fuel ih =>
    intro n ds h
    simp only [Nat.toDigitsCore]
    have hd : '[' ∉ Nat.digitChar (n % 10) :: ds := by
      intro hmem
      rcases List.mem_cons.mp hmem with h1 | h1
      · exact digitChar_ne_bracket _ (Nat.mod_lt _ (by decide)) h1.symm
      · exact h h1
    split_ifs
    · exact hd
    · exact ih _ _ hd

/-- The decimal rendering of a `size_t` value contains no bracket. -/
theorem nat_repr_no_bracket (n : Nat) : '[' ∉ (toString n).toList := by
  show '[' ∉ (Nat.repr n).toList
  unfold Nat.repr Nat.toDigits
  simpa using toDigitsCore_no_bracket (n + 1) n [] (by simp)

/-- The decimal rendering of an `int` value contains no bracket. -/
theorem int_repr_no_bracket (n : Int) : '[' ∉ (toString n).toList := by
  cases n with
  | ofNat m => exact nat_repr_no_bracket m
  | negSucc m =>
    show '[' ∉ ("-" ++ toString (Nat.succ m)).toList
    intro h
    rw [String.toList, String.data_append] at h
    rcases List.mem_append.mp h with h1 | h1
    · revert h1; decide
    · exact nat_repr_no_bracket _ h1

/-- A string without an opening bracket contains no endpoint descriptor. -/
theorem no_descriptor_without_bracket (msg address : String) (port : Int)
    (h : '[' ∉ msg.toList) : ¬ ((endpoint_id address port).toList <:+: msg.toList) := by
  intro hin
  apply h
  apply hin.subset
  simp [endpoint_id, String.toList, String.data_append]

/-- Neither "reading error: n/size" nor "Writing error: n/size" contains a bracket. -/
theorem count_message_no_bracket (n : Int) (size : Nat) :
    '[' ∉ ("reading error: " ++ toString n ++ "/" ++ toString size).toList ∧
    '[' ∉ ("Writing error: " ++ toString n ++ "/" ++ toString size).toList := by
  have hn := int_repr_no_bracket n
  have hs := nat_repr_no_bracket size
  simp only [String.toList] at hn hs
  constructor
  · simp only [String.toList, String.data_append, List.mem_append, not_or]
    exact ⟨⟨⟨by decide, hn⟩, by decide⟩, hs⟩
  · simp only [String.toList, String.data_append, List.mem_append, not_or]
    exact ⟨⟨⟨by decide, hn⟩, by decide⟩, hs⟩

/-- C5, as amended: every string thrown by `setup_serial`, and every string thrown by
`setup_socket` once the socket is created and the host found (failed or timed-out
readiness wait, failed `getsockopt`, pending socket error), begins with the endpoint
descriptor "[address:port]" ("[path:flags]" for a serial port). The strings thrown by
`readS` and `writeS` are "reading error: n/size" and "Writing error: n/size" for the
count `n` and the requested `size`; they contain no endpoint descriptor, whatever the
address and the port. -/
theorem error_messages (serial : SerialOS) (socket : SocketOS) (transport : TransportOS)
    (c : Client) (address : String) (port flags timeout : Int) (buffer : List Nat)
    (size : Nat) (msg : String) :
    ((setup_serial serial c address flags).result = Except.error msg →
      ∃ rest, msg = endpoint_id address flags ++ rest) ∧
    (socket.socket_ret ≠ INVALID_SOCKET → socket.gethostbyname_found address = true →
      (setup_socket socket c address port timeout).result = Except.error msg →
      ∃ rest, msg = endpoint_id address port ++ rest) ∧
    ((readS transport c buffer size).1 = Except.error msg →
      (∃ n : Int, msg = "reading error: " ++ toString n ++ "/" ++ toString size) ∧
      ∀ (a : String) (p : Int), ¬ ((endpoint_id a p).toList <:+: msg.toList)) ∧
    ((writeS transport c buffer size).1 = Except.error msg →
      (∃ n : Int, msg = "Writing error: " ++ toString n ++ "/" ++ toString size) ∧
      ∀ (a : String) (p : Int), ¬ ((endpoint_id a p).toList <:+: msg.toList)) := by
  refine ⟨?_, ?_, ?_, ?_⟩
  · intro h
    unfold setup_serial at h
    simp only at h
    split_ifs at h
    · exact ⟨_, (Except.error.inj h).symm⟩
    · exact ⟨_, (Except.error.inj h).symm⟩
    · exact ⟨_, (Except.error.inj h).symm⟩
  · intro hsock hhost h
    rw [(setup_socket_reaches_wait socket c address port timeout hsock hhost).1] at h
    exact setup_socket_wait_message socket _ _ _ _ _ msg h
  · intro h
    unfold readS at h
    simp only at h
    split_ifs at h
    have hmsg := (Except.error.inj h).symm
    refine ⟨⟨_, hmsg⟩, fun a p => ?_⟩
    rw [hmsg]
    exact no_descriptor_without_bracket _ a p (count_message_no_bracket _ size).1
  · intro h
    unfold writeS at h
    simp only at h
    split_ifs at h
    have hmsg := (Except.error.inj h).symm
    refine ⟨⟨_, hmsg⟩, fun a p => ?_⟩
    rw [hmsg]
    exact no_descriptor_without_bracket _ a p (count_message_no_bracket _ size).2

/-- Witness for C5 as amended: the timed-out connect to 10.0.0.1:5000 and the short read
of 2 out of 4 bytes. -/
theorem error_messages_witness :
    (setup_socket socket_os_timeout fresh_client "10.0.0.1" 5000 2).result
      = Except.error "[10.0.0.1:5000] Connection timed out" ∧
    (∃ rest, "[10.0.0.1:5000] Connection timed out" = endpoint_id "10.0.0.1" 5000 ++ rest) ∧
    (readS (chunked_transport [[1, 2], [3, 4]]) socket_client [0, 0, 0, 0] 4).1
      = Except.error "reading error: 2/4" ∧
    (∃ n : Int, "reading error: 2/4" = "reading error: " ++ toString n ++ "/" ++ toString 4) :=
  ⟨rfl,
   (error_messages serial_os_ok socket_os_timeout (chunked_transport [[1, 2], [3, 4]])
      fresh_client "10.0.0.1" 5000 2 2 [0, 0, 0, 0] 4
      "[10.0.0.1:5000] Connection timed out").2.1 (by decide) rfl rfl,
   rfl,
   ((error_messages serial_os_ok socket_os_timeout (chunked_transport [[1, 2], [3, 4]])
      socket_client "10.0.0.1" 5000 2 2 [0, 0, 0, 0] 4 "reading error: 2/4").2.2.1 rfl).1⟩

/-- C5 (counterexample): a client is connected to 10.0.0.1 port 5000; a `readS` of 4
bytes that receives 2 throws "reading error: 2/4", and a `writeS` of 4 bytes reported
as 0 throws "Writing error: 0/4". Neither string contains the descriptor
"[10.0.0.1:5000]", the address or the port. -/
theorem readS_writeS_error_without_descriptor :
    (open_connection ⟨serial_os_ok, socket_os_ok⟩ fresh_client "10.0.0.1" 5000 2).client
      = socket_client ∧
    (readS (chunked_transport [[1, 2], [3, 4]]) socket_client [0, 0, 0, 0] 4).1
      = Except.error "reading error: 2/4" ∧
    (writeS (constant_transport 0) socket_client [1, 2, 3, 4] 4).1
      = Except.error "Writing error: 0/4" ∧
    ¬ ((endpoint_id "10.0.0.1" 5000).toList <:+: "reading error: 2/4".toList) ∧
    ¬ ("10.0.0.1".toList <:+: "reading error: 2/4".toList) ∧
    ¬ ("5000".toList <:+: "reading error: 2/4".toList) ∧
    ¬ ((endpoint_id "10.0.0.1" 5000).toList <:+: "Writing error: 0/4".toList) ∧
    ¬ ("10.0.0.1".toList <:+: "Writing error: 0/4".toList) ∧
    ¬ ("5000".toList <:+: "Writing error: 0/4".toList) := by
  refine ⟨rfl, rfl, rfl, ?_, ?_, ?_, ?_, ?_, ?_⟩ <;> decide

/-! ### Witnesses and the default-value timeout -/

/-- Witness for C9: the connect to 10.0.0.1:5000 with a 2 second timeout is reported
"in progress" and the readiness wait returns 0. -/
theorem setup_socket_wait_classification_witness :
    socket_os_timeout.socket_ret ≠ INVALID_SOCKET ∧
    socket_os_timeout.gethostbyname_found "10.0.0.1" = true ∧
    (socket_os_timeout.connect_ret < 0 ∧ socket_os_timeout.errno_at_check = EINPROGRESS) ∧
    (setup_socket socket_os_timeout fresh_client "10.0.0.1" 5000 2).result
      = Except.error (endpoint_id "10.0.0.1" 5000 ++ " Connection timed out") ∧
    is_connected (setup_socket socket_os_ok fresh_client "10.0.0.1" 5000 2).client = true :=
  ⟨by decide, rfl, ⟨by decide, rfl⟩,
   ((setup_socket_wait_classification socket_os_timeout fresh_client "10.0.0.1" 5000 2
      (by decide) rfl ⟨by decide, rfl⟩).1 rfl).1,
   ((setup_socket_wait_classification socket_os_ok fresh_client "10.0.0.1" 5000 2
      (by decide) rfl ⟨by decide, rfl⟩).2.2.1 (by decide)).2.2 (by decide) rfl |>.2⟩

/-- C6 (counterexample): the timeout 258 is supplied, the value of `O_RDWR | O_NOCTTY`.
`open_connection` passes -1 to `setup_socket`: no `fcntl` is issued before `connect`, so
the socket is not switched to non-blocking mode, and `connect` is issued on the
blocking socket. -/
theorem default_value_timeout_blocks :
    (258 : Int) ≠ -1 ∧
    timeout_of_flags 258 = -1 ∧
    (open_connection ⟨serial_os_ok, socket_os_connected⟩ fresh_client "10.0.0.1" 5000 258).trace
      = [SysCall.socket, SysCall.gethostbyname "10.0.0.1",
          SysCall.connect 3 "10.0.0.1" 5000, SysCall.getsockopt 3, SysCall.usleep 100000] := by
  refine ⟨by decide, by decide, ?_⟩
  decide

/-- Witness for C6 as amended: a connect to 10.0.0.1:5000 with timeout 2 that is
reported "in progress", a connect with timeout -1, and a connect with timeout 2 on a
system whose `F_GETFL` fails. -/
theorem open_connection_timeout_witness :
    (5000 : Int) ≠ -1 ∧ (2 : Int) ≠ -1 ∧ (2 : Int) ≠ default_flags ∧
    SysCall.select (3 + 1) 2 0
      ∈ (open_connection ⟨serial_os_ok, socket_os_ok⟩ fresh_client "10.0.0.1" 5000 2).trace ∧
    (∀ e ∈ (open_connection ⟨serial_os_ok, socket_os_connected⟩ fresh_client "10.0.0.1" 5000
        (-1)).trace, e.is_fcntl = false) ∧
    (∃ rest, (open_connection ⟨serial_os_ok, socket_os_ok⟩ fresh_client "10.0.0.1" 5000
        2).trace
      = [SysCall.socket, SysCall.gethostbyname "10.0.0.1", SysCall.fcntl_getfl 3,
          SysCall.fcntl_setfl 3 2050, SysCall.connect 3 "10.0.0.1" 5000] ++ rest) ∧
    (∃ rest, (open_connection ⟨serial_os_ok, socket_os_getfl_fails⟩ fresh_client "10.0.0.1"
        5000 2).trace
      = [SysCall.socket, SysCall.gethostbyname "10.0.0.1", SysCall.fcntl_getfl 3,
          SysCall.connect 3 "10.0.0.1" 5000] ++ rest) := by
  refine ⟨by decide, by decide, by decide,
    ((open_connection_timeout ⟨serial_os_ok, socket_os_ok⟩ fresh_client "10.0.0.1" 5000 2
      (by decide) (by decide) rfl).2 (by decide) (by decide)).2.2 ⟨by decide, rfl⟩,
    ((open_connection_timeout ⟨serial_os_ok, socket_os_connected⟩ fresh_client "10.0.0.1" 5000
      (-1) (by decide) (by decide) rfl).1 (Or.inl rfl)).1, ?_, ?_⟩
  · obtain ⟨rest, h⟩ := ((open_connection_timeout ⟨serial_os_ok, socket_os_ok⟩ fresh_client
      "10.0.0.1" 5000 2 (by decide) (by decide) rfl).2 (by decide) (by decide)).1
    exact ⟨_, h⟩
  · obtain ⟨rest, h⟩ := ((open_connection_timeout ⟨serial_os_ok, socket_os_getfl_fails⟩
      fresh_client "10.0.0.1" 5000 2 (by decide) (by decide) rfl).2 (by decide) (by decide)).1
    exact ⟨_, h⟩

end Communication
